import Mathlib

/-!
Verification development for the MANIS news pipeline
(`manis_agent`): a shallow embedding of the feed collectors
(CNN, Reuters, Google News), the shared `collected_articles`
accumulator, the enrichment stages (preprocess, credibility scoring,
dubious-claim flagging, sentiment, bias detection) and the email
delivery tool, with theorems about the properties the specification
states for them.

Conventions of the embedding:
* Python `datetime` values are modelled as `Nat` epoch seconds;
  `datetime.now() - timedelta(hours=48)` becomes `now - 172800`
  (truncated subtraction, immaterial for realistic clock values).
* `feedparser` entries are modelled by `RawEntry`; a `published_parsed`
  (or `updated_parsed`) field that is absent, empty, or whose
  `datetime(*...[:6])` conversion raises is modelled as `none`.
* `BeautifulSoup(...).get_text()` (HTML stripping) and
  `resolve_google_news_url` (network redirect resolution) are external
  effects and are passed in as function parameters.
* Python `in` on strings is substring containment, modelled by
  `containsSub` over the character lists.
-/

namespace Manis

/-- Python `needle in hay` for strings: substring containment. -/
def containsSub (hay needle : String) : Bool :=
  (List.range (hay.data.length + 1)).any
    (fun i => needle.data.isPrefixOf (hay.data.drop i))

/-- Python `str.lower()` (over the character list, so that concrete
instances evaluate inside proofs). -/
def pyLower (s : String) : String := ⟨s.data.map Char.toLower⟩

/-- Python `str.strip()`. -/
def pyStrip (s : String) : String :=
  ⟨((s.data.dropWhile Char.isWhitespace).reverse.dropWhile
      Char.isWhitespace).reverse⟩

/-- Worker for `splitPred`: split at every character satisfying `p`,
keeping empty fragments. -/
def splitPredGo (p : Char → Bool) : List Char → List Char → List String
  | [], cur => [⟨cur.reverse⟩]
  | c :: cs, cur =>
    if p c then ⟨cur.reverse⟩ :: splitPredGo p cs []
    else splitPredGo p cs (c :: cur)

/-- Split a string at every character satisfying `p` (empty fragments
kept). -/
def splitPred (p : Char → Bool) (s : String) : List String :=
  splitPredGo p s.data []

/-- Python `str.split()` (split on whitespace runs, no empty parts). -/
def pyWords (s : String) : List String :=
  (splitPred Char.isWhitespace s).filter (fun w => w ≠ "")

/-- Join strings with a separator. -/
def joinSep (sep : String) : List String → String
  | [] => ""
  | [x] => x
  | x :: xs => x ++ sep ++ joinSep sep xs

/-- `re.sub(r's+', ' ', text).strip()` with a whitespace class:
whitespace-run collapsing plus trim, as used by the preprocessor. -/
def normWs (s : String) : String :=
  joinSep " " (pyWords s)

/-- Worker for `pySplitOn`; the fuel (initialised to the string
length) only bounds the recursion and never runs out for a non-empty
separator. -/
def splitOnGo (sep : List Char) : Nat → List Char → List Char → List String
  | _, [], cur => [⟨cur.reverse⟩]
  | 0, rest, cur => [⟨cur.reverse ++ rest⟩]
  | fuel + 1, c :: cs, cur =>
    if sep.isPrefixOf (c :: cs) then
      ⟨cur.reverse⟩ :: splitOnGo sep fuel ((c :: cs).drop sep.length) []
    else splitOnGo sep fuel cs (c :: cur)

/-- Python `str.split(sep)` for a non-empty separator. -/
def pySplitOn (s sep : String) : List String :=
  splitOnGo sep.data s.data.length s.data []

/-- Python `str.startswith(pre)`. -/
def pyStartsWith (s pre : String) : Bool := pre.data.isPrefixOf s.data

/-- Python `str.endswith(suf)`. -/
def pyEndsWith (s suf : String) : Bool := suf.data.isSuffixOf s.data

/-- Python `s[n:]`. -/
def pyDrop (s : String) (n : Nat) : String := ⟨s.data.drop n⟩

/-- Python `s[:-n]` (for `n ≤ len`; shorter strings give `""`, as in
Python). -/
def pyDropRight (s : String) (n : Nat) : String :=
  ⟨s.data.take (s.data.length - n)⟩

/-- A parsed feed entry as the collectors see it
(`feedparser` entry object). -/
structure RawEntry where
  title : Option String
  published : Option Nat
  updated : Option Nat
  summary : String
  link : Option String
deriving DecidableEq

/-- A normalized article dict as built by the collectors.
Fields that only some collectors set are `Option`s. -/
structure Article where
  title : String
  url : String
  source : String
  politicalLeaning : Option String
  aggregator : Option String
  originalSource : Option String
  region : String
  category : String
  timestamp : Nat
  description : String
  text : String
deriving DecidableEq

/-- Why the per-entry loop skipped an entry, or the article it built. -/
inductive EntryOutcome where
  | parseFailed
  | tooOld
  | missingTitle
  | sports
  | accepted (a : Article)
deriving DecidableEq

/-- The per-call debug counters kept by `fetch_cnn_rss`. -/
structure Counters where
  checked : Nat
  tooOld : Nat
  parseFailed : Nat
  missingTitle : Nat
deriving DecidableEq

def Counters.zero : Counters := ⟨0, 0, 0, 0⟩

def Counters.bump (c : Counters) : EntryOutcome → Counters
  | .parseFailed => { c with parseFailed := c.parseFailed + 1 }
  | .tooOld => { c with tooOld := c.tooOld + 1 }
  | .missingTitle => { c with missingTitle := c.missingTitle + 1 }
  | .sports => c
  | .accepted _ => c

/-- The collector `for entry in feed.entries[:k]` loop body shared by all
three fetchers: each entry is classified by `process`; accepted articles
are appended to the local `articles` list and the loop breaks once
`len(articles) >= max_articles` (the slice to `[:k]` is applied by the
caller). -/
def fetchLoop (process : RawEntry → EntryOutcome) (maxArticles : Nat) :
    List RawEntry → List Article → Counters → List Article × Counters
  | [], acc, cnt => (acc, cnt)
  | e :: es, acc, cnt =>
    let cnt := { cnt with checked := cnt.checked + 1 }
    match process e with
    | .accepted a =>
      let acc' := acc ++ [a]
      if maxArticles ≤ acc'.length then (acc', cnt)
      else fetchLoop process maxArticles es acc' cnt
    | o => fetchLoop process maxArticles es acc (cnt.bump o)

/-- Result dictionary returned by a fetch tool (success flag, reported
count, error string, and the CNN debug counters where kept). -/
structure FetchResult where
  success : Bool
  count : Nat
  error : Option String
  counters : Counters
deriving DecidableEq

/-! ## CNN collector (`cnn_collector/tools.py`, `fetch_cnn_rss`) -/

/-- One entry of the `fetch_cnn_rss` loop: date parse (published, then
updated, else skip), 48-hour cutoff, title presence, article dict. -/
def cnnProcessEntry (category : String) (now : Nat)
    (strip : String → String) (e : RawEntry) : EntryOutcome :=
  match e.published <|> e.updated with
  | none => .parseFailed
  | some pubDate =>
    if pubDate < now - 172800 then .tooOld
    else
      match e.title with
      | none => .missingTitle
      | some t0 =>
        let title := pyStrip t0
        if title = "" then .missingTitle
        else
          let cleanDescription := pyStrip (strip e.summary)
          .accepted
            { title := title
              url := e.link.getD ""
              source := "CNN"
              politicalLeaning := some "center-left"
              aggregator := none
              originalSource := none
              region := "US"
              category := category
              timestamp := pubDate
              description := cleanDescription
              text := cleanDescription }

/-- The batch of articles one `fetch_cnn_rss` call builds from the feed
entries: at most `2 * maxArticles` entries are examined. -/
def cnnBatch (category : String) (maxArticles : Nat) (entries : List RawEntry)
    (now : Nat) (strip : String → String) : List Article × Counters :=
  fetchLoop (cnnProcessEntry category now strip) maxArticles
    (entries.take (maxArticles * 2)) [] Counters.zero

/-- `fetch_cnn_rss(category, max_articles, tool_context)`.  `entries` is
the parsed feed, `now` the clock, `strip` models BeautifulSoup text
extraction, `collected` the `collected_articles` state key; the second
component of the result is the new value of that key.  The
`json.dumps` serializability check always succeeds in this model (all
field values are strings and numbers). -/
def fetch_cnn_rss (category : String) (maxArticles : Nat)
    (entries : List RawEntry) (now : Nat) (strip : String → String)
    (collected : List Article) : FetchResult × List Article :=
  if ¬ (["politics", "tech"].contains category) then
    (⟨false, 0,
      some ("Invalid category: " ++ category ++ ". Use politics or tech."),
      Counters.zero⟩, collected)
  else if entries.isEmpty then
    (⟨false, 0, some ("No entries found in CNN " ++ category ++ " RSS feed"),
      Counters.zero⟩, collected)
  else
    let ac := cnnBatch category maxArticles entries now strip
    (⟨true, ac.1.length, none, ac.2⟩, collected ++ ac.1)

/-! ## Reuters collector (`reuters_collector/tools.py`,
`fetch_reuters_rss`).

Two deviations from the other collectors, embedded faithfully:
the date parse `try: pub_date = datetime(*entry.published_parsed[:6])
except: pub_date = datetime.now()` DEFAULTS to the current time instead
of skipping the entry (and never consults `updated_parsed`), and there
is neither an empty-feed guard nor a missing-title skip
(`'No title'` is used as the title default). -/

/-- One entry of the `fetch_reuters_rss` loop. -/
def reutersProcessEntry (category : String) (now : Nat)
    (strip : String → String) (e : RawEntry) : EntryOutcome :=
  let pubDate := e.published.getD now
  if pubDate < now - 172800 then .tooOld
  else
    let cleanDescription := pyStrip (strip e.summary)
    .accepted
      { title := e.title.getD "No title"
        url := e.link.getD ""
        source := "Reuters"
        politicalLeaning := some "center-left"
        aggregator := none
        originalSource := none
        region := "US"
        category := category
        timestamp := pubDate
        description := cleanDescription
        text := cleanDescription }

/-- The batch of articles one `fetch_reuters_rss` call builds. -/
def reutersBatch (category : String) (maxArticles : Nat)
    (entries : List RawEntry) (now : Nat) (strip : String → String) :
    List Article × Counters :=
  fetchLoop (reutersProcessEntry category now strip) maxArticles
    (entries.take (maxArticles * 2)) [] Counters.zero

/-- `fetch_reuters_rss(category, max_articles, tool_context)`. -/
def fetch_reuters_rss (category : String) (maxArticles : Nat)
    (entries : List RawEntry) (now : Nat) (strip : String → String)
    (collected : List Article) : FetchResult × List Article :=
  if ¬ (["politics", "tech"].contains category) then
    (⟨false, 0,
      some ("Invalid category: " ++ category ++ ". Use politics or tech."),
      Counters.zero⟩, collected)
  else
    let ac := reutersBatch category maxArticles entries now strip
    (⟨true, ac.1.length, none, ac.2⟩, collected ++ ac.1)

/-! ## Google News collector (`google_news_collector/tools.py`,
`fetch_google_news_rss`) -/

def sportsFilterKeywords : List String :=
  ["football", "basketball", "baseball", "soccer", "athletics",
   "touchdown", "quarterback", "tournament", "championship",
   "varsity", "recruit", "roster", "score", "game", "season"]

def universityTechIndicators : List String :=
  ["georgia tech", "virginia tech", "texas tech", "louisiana tech"]

/-- The sports-content filter applied to technology-topic entries:
on the lowercased `title + " " + clean_description`, if a Tech
university name occurs, one sports keyword substring suffices to
reject; otherwise at least two distinct space-delimited sports
keywords are required. -/
def isSportsArticle (title cleanDescription : String) : Bool :=
  let textToCheck := pyLower (title ++ " " ++ cleanDescription)
  let hasUniversityTech :=
    universityTechIndicators.any (fun u => containsSub textToCheck u)
  if hasUniversityTech then
    sportsFilterKeywords.any (fun k => containsSub textToCheck k)
  else
    2 ≤ (sportsFilterKeywords.filter
      (fun k =>
        containsSub (" " ++ textToCheck ++ " ") (" " ++ k ++ " "))).length

/-- `title.rsplit(' - ', 1)` source extraction: when `" - "` occurs in
the title, the part after its last occurrence (stripped) becomes the
source and the part before it (stripped) the title; otherwise the
source is `"Google News"`. -/
def googleSourceSplit (title : String) : String × String :=
  let parts := pySplitOn title " - "
  if 2 ≤ parts.length then
    (pyStrip (joinSep " - " parts.dropLast),
      pyStrip ((parts.getLast?).getD ""))
  else (title, "Google News")

/-- One entry of the `fetch_google_news_rss` loop: date parse and
48-hour cutoff as for CNN, title presence, sports filter (technology
topic only), source split, URL resolution (`resolve` models
`resolve_google_news_url`, which falls back to the raw URL on
failure). -/
def googleProcessEntry (topic : String) (now : Nat)
    (strip resolve : String → String) (e : RawEntry) : EntryOutcome :=
  match e.published <|> e.updated with
  | none => .parseFailed
  | some pubDate =>
    if pubDate < now - 172800 then .tooOld
    else
      match e.title with
      | none => .missingTitle
      | some t0 =>
        let title := pyStrip t0
        if title = "" then .missingTitle
        else
          let cleanDescription := pyStrip (strip e.summary)
          if topic == "technology" && isSportsArticle title cleanDescription
          then .sports
          else
            let ts := googleSourceSplit title
            .accepted
              { title := ts.1
                url := resolve (e.link.getD "")
                source := ts.2
                politicalLeaning := none
                aggregator := some "Google News"
                originalSource := some ts.2
                region := if topic == "europe" then "EU/International" else "US"
                category := topic
                timestamp := pubDate
                description := cleanDescription
                text := cleanDescription }

/-- The batch of articles one `fetch_google_news_rss` call builds: at
most `3 * maxArticles` entries are examined. -/
def googleBatch (topic : String) (maxArticles : Nat)
    (entries : List RawEntry) (now : Nat) (strip resolve : String → String) :
    List Article × Counters :=
  fetchLoop (googleProcessEntry topic now strip resolve) maxArticles
    (entries.take (maxArticles * 3)) [] Counters.zero

/-- `fetch_google_news_rss(topic, max_articles, tool_context)`.  The
`collected_articles` state key is cleared at the top of the call when
`topic == 'politics'` (the first topic the collector agent queries in
a run); all other behaviour parallels the CNN fetcher plus the sports
filter and source split. -/
def fetch_google_news_rss (topic : String) (maxArticles : Nat)
    (entries : List RawEntry) (now : Nat) (strip resolve : String → String)
    (collected : List Article) : FetchResult × List Article :=
  let state0 := if topic == "politics" then [] else collected
  if ¬ (["politics", "technology", "europe"].contains topic) then
    (⟨false, 0, some ("Invalid topic: " ++ topic ++ "."), Counters.zero⟩,
      state0)
  else if entries.isEmpty then
    (⟨false, 0,
      some ("No entries found in Google News " ++ topic ++ " RSS feed"),
      Counters.zero⟩, state0)
  else
    let ac := googleBatch topic maxArticles entries now strip resolve
    (⟨true, ac.1.length, none, ac.2⟩, state0 ++ ac.1)

/-! ## Article dicts for the enrichment chain

The enrichment stages treat articles as Python dicts with
string/number/list values.  We model a dict as an association list in
insertion order: `dset` on a present key updates in place, on an
absent key appends (Python 3.7+ dict semantics).  `copy()` of such a
dict is a value copy, since all stored values are immutable. -/

/-- A value stored in an article dict. -/
inductive Val where
  | s (v : String)
  | i (v : Int)
  | q (v : ℚ)
  | b (v : Bool)
  | ls (v : List String)
deriving DecidableEq

/-- An article dict: association list in insertion order. -/
abbrev Doc := List (String × Val)

/-- `d[k]` / `d.get(k)`. -/
def dget (d : Doc) (k : String) : Option Val :=
  (d.find? (fun p => p.1 == k)).map (fun p => p.2)

/-- `d[k] = v`: update in place when present, append when absent. -/
def dset (d : Doc) (k : String) (v : Val) : Doc :=
  if d.any (fun p => p.1 == k) then
    d.map (fun p => if p.1 == k then (k, v) else p)
  else d ++ [(k, v)]

/-- `d.get(k, default)` for string values. -/
def getStr (d : Doc) (k : String) (dflt : String) : String :=
  match dget d k with
  | some (.s v) => v
  | _ => dflt

/-- `d.get(k, default)` for integer values. -/
def getInt (d : Doc) (k : String) (dflt : Int) : Int :=
  match dget d k with
  | some (.i v) => v
  | _ => dflt

/-- `d.get(k, [])` for list values. -/
def getList (d : Doc) (k : String) : List String :=
  match dget d k with
  | some (.ls v) => v
  | _ => []

/-! ## Preprocessor (`preprocessor/tools.py`) -/

/-- Categorized entity-extraction output
(`extract_entities_with_spacy`); the spaCy NER model is external, so
stages take the extraction function as a parameter. -/
structure EntityData where
  persons : List String
  organizations : List String
  locations : List String
  allEntities : List String
deriving DecidableEq

def claimVerbs : List String :=
  ["said", "says", "stated", "announced", "reported", "confirmed",
   "revealed", "claimed", "argued", "warned", "predicted", "declared"]

/-- The `extract_claims` sentence loop: append trimmed sentences with
at least 5 words containing a claim verb; stop at 5 claims.
(`re.split(r'[.!?]+', text)` is modelled by splitting at each
terminator; the empty fragments this adds are dropped by the 5-word
minimum, as in the source.) -/
def claimsLoop : List String → List String → List String
  | [], acc => acc
  | s :: rest, acc =>
    let t := pyStrip s
    let acc' :=
      if (pyWords t).length < 5 then acc
      else if claimVerbs.any (fun v => containsSub (pyLower t) v) then
        acc ++ [t]
      else acc
    if 5 ≤ acc'.length then acc' else claimsLoop rest acc'

/-- `extract_claims(text)`. -/
def extract_claims (text : String) : List String :=
  claimsLoop (splitPred (fun c => c = '.' || c = '!' || c = '?') text) []

/-- Keys the preprocessor adds to each article dict. -/
def preprocessKeys : List String :=
  ["clean_text", "entities", "persons", "organizations", "locations",
   "claims", "word_count"]

/-- The per-article body of `preprocess_articles`:
`processed_article = article.copy()` followed by the seven key
assignments.  `ner` models `extract_entities_with_spacy`. -/
def preprocessArticle (ner : String → EntityData) (d : Doc) : Doc :=
  let text := getStr d "text" (getStr d "description" "")
  let cleanText := normWs text
  let ent := ner cleanText
  let claims := extract_claims cleanText
  dset (dset (dset (dset (dset (dset (dset d
    "clean_text" (.s cleanText))
    "entities" (.ls ent.allEntities))
    "persons" (.ls ent.persons))
    "organizations" (.ls ent.organizations))
    "locations" (.ls ent.locations))
    "claims" (.ls claims))
    "word_count" (.i (pyWords cleanText).length)

/-- `preprocess_articles`: output articles, and the residual state of
the input records after the stage.  Because the stage writes only to
`article.copy()`, the inputs are left untouched (residual = input). -/
def preprocess_articles (ner : String → EntityData) (arts : List Doc) :
    List Doc × List Doc :=
  (arts.map (preprocessArticle ner), arts)

/-! ## Fact checker (`fact_checker/tools.py`) -/

/-- One row of the `SOURCE_CREDIBILITY` table. -/
structure CredEntry where
  credibility_score : Int
  political_bias : String
  bias_score : Int
  fact_accuracy : String
  notes : String
deriving DecidableEq

/-- The static `SOURCE_CREDIBILITY` dict (keys in source order). -/
def SOURCE_CREDIBILITY : List (String × CredEntry) :=
  [("NPR", ⟨85, "center-left", 3, "high",
      "Public broadcaster with strong fact-checking standards"⟩),
   ("BBC", ⟨88, "center", 2, "very high",
      "International public broadcaster with rigorous editorial standards"⟩),
   ("Reuters", ⟨90, "center", 1, "very high",
      "International news agency focused on factual reporting"⟩),
   ("Associated Press", ⟨90, "center", 1, "very high",
      "Cooperative news agency with high editorial standards"⟩),
   ("AP", ⟨90, "center", 1, "very high",
      "Associated Press - high editorial standards"⟩),
   ("The Wall Street Journal", ⟨82, "center-right", 3, "high",
      "Business-focused with strong reporting (opinion pages lean right)"⟩),
   ("The New York Times", ⟨78, "center-left", 4, "high",
      "Major newspaper with thorough reporting; some editorial lean"⟩),
   ("The Washington Post", ⟨76, "center-left", 4, "high",
      "Strong investigative journalism; editorial lean"⟩),
   ("CNN", ⟨72, "center-left", 4, "generally factual",
      "Cable news network with center-left editorial perspective"⟩),
   ("The Guardian", ⟨74, "left", 5, "generally factual",
      "British newspaper with progressive editorial stance"⟩),
   ("Politico", ⟨75, "center", 3, "high",
      "Political journalism focused on policy and Washington"⟩),
   ("The Independent", ⟨70, "center-left", 4, "generally factual",
      "British newspaper with center-left perspective"⟩),
   ("Financial Times", ⟨80, "center", 2, "high",
      "International business newspaper with strong economic analysis"⟩),
   ("ESPN", ⟨65, "center", 1, "factual",
      "Sports journalism - credibility for sports, not political news"⟩),
   ("The White House (.gov)", ⟨75, "government", 5, "official",
      "Official government source - factual but reflects current administration"⟩),
   ("Unknown", ⟨60, "unknown", 5, "unknown",
      "Source not in credibility database"⟩)]

/-- `SOURCE_CREDIBILITY.get(source, SOURCE_CREDIBILITY['Unknown'])`. -/
def credFor (source : String) : CredEntry :=
  match (SOURCE_CREDIBILITY.find? (fun p => p.1 == source)).map (·.2) with
  | some c => c
  | none => ⟨60, "unknown", 5, "unknown", "Source not in credibility database"⟩

/-- Credibility band thresholds used by the stats update in
`score_article_credibility`. -/
inductive Band where
  | high
  | medium
  | low
deriving DecidableEq

/-- `if score >= 80: high elif score >= 60: medium else: low`. -/
def bandOf (score : Int) : Band :=
  if 80 ≤ score then .high else if 60 ≤ score then .medium else .low

/-- The credibility/bias band counters
(`credibility_stats` in `score_article_credibility`). -/
structure CredStats where
  high_credibility : Nat
  medium_credibility : Nat
  low_credibility : Nat
  high_bias : Nat
  low_bias : Nat
deriving DecidableEq

def CredStats.zero : CredStats := ⟨0, 0, 0, 0, 0⟩

/-- One article's statistics update. -/
def CredStats.bump (st : CredStats) (c : CredEntry) : CredStats :=
  let st :=
    match bandOf c.credibility_score with
    | .high => { st with high_credibility := st.high_credibility + 1 }
    | .medium => { st with medium_credibility := st.medium_credibility + 1 }
    | .low => { st with low_credibility := st.low_credibility + 1 }
  if 7 ≤ c.bias_score then { st with high_bias := st.high_bias + 1 }
  else if c.bias_score < 4 then { st with low_bias := st.low_bias + 1 }
  else st

/-- The per-article body of `score_article_credibility`:
`scored_article = article.copy()` plus the four credibility keys from
the table row for `article.get('source', 'Unknown')`. -/
def scoreArticle (d : Doc) : Doc :=
  let cred := credFor (getStr d "source" "Unknown")
  dset (dset (dset (dset d
    "credibility_score" (.i cred.credibility_score))
    "bias_score" (.i cred.bias_score))
    "fact_accuracy_rating" (.s cred.fact_accuracy))
    "credibility_notes" (.s cred.notes)

/-- Keys the credibility stage adds. -/
def scoreKeys : List String :=
  ["credibility_score", "bias_score", "fact_accuracy_rating",
   "credibility_notes"]

/-- `score_article_credibility`: scored articles, accumulated band
statistics, and the residual state of the inputs (copies again, so the
inputs are untouched). -/
def score_article_credibility (arts : List Doc) :
    (List Doc × CredStats) × List Doc :=
  ((arts.map scoreArticle,
    arts.foldl (fun st d => st.bump (credFor (getStr d "source" "Unknown")))
      CredStats.zero), arts)

/-! ## Dubious-claim flagging (`flag_dubious_claims`) -/

def verificationKeywords : List String :=
  ["reportedly", "allegedly", "claims", "unconfirmed",
   "sources say", "anonymous", "rumored", "speculation"]

/-- Whether one claim string of an article with the given `bias_score`
is flagged: hedge-keyword substring of the lowercased claim, or a
high-bias source (`bias_score >= 7`). -/
def claimFlagged (biasScore : Int) (c : String) : Bool :=
  (verificationKeywords.any (fun k => containsSub (pyLower c) k)) ||
    decide (7 ≤ biasScore)

/-- One entry of the `flagged_claims` list. -/
structure FlaggedClaim where
  claim : String
  source : String
  article_title : String
  reason : String
  credibility_score : Int
deriving DecidableEq

/-- The flagged-claims record built for claim `c` of article `d`. -/
def mkFlagged (d : Doc) (c : String) : FlaggedClaim :=
  { claim := c
    source := getStr d "source" ""
    article_title := getStr d "title" ""
    reason :=
      if verificationKeywords.any (fun k => containsSub (pyLower c) k) then
        "verification_keyword"
      else "high_bias_source"
    credibility_score := getInt d "credibility_score" 0 }

/-- Result of `flag_dubious_claims`. -/
structure FlagResult where
  total_claims : Nat
  flagged : List FlaggedClaim
  flag_rate : ℚ
deriving DecidableEq

/-- `flag_dubious_claims`: totals every article's `claims` list, flags
each claim by `claimFlagged`, and reports
`flag_rate = flagged/total if total > 0 else 0`. -/
def flag_dubious_claims (arts : List Doc) : FlagResult :=
  let total := (arts.map (fun d => (getList d "claims").length)).sum
  let flagged := arts.flatMap (fun d =>
    ((getList d "claims").filter
      (claimFlagged (getInt d "bias_score" 0))).map (mkFlagged d))
  { total_claims := total
    flagged := flagged
    flag_rate := if 0 < total then (flagged.length : ℚ) / (total : ℚ) else 0 }

/-! ## NLP analyst (`nlp_analyst/tools.py`) -/

/-- `round(x, 3)` (half-to-even float ties are immaterial here). -/
def round3 (x : ℚ) : ℚ := ((x * 1000 + 1/2).floor : ℚ) / 1000

/-- `polarity > 0.1` positive, `< -0.1` negative, else neutral. -/
def sentimentCategory (p : ℚ) : String :=
  if 1/10 < p then "positive"
  else if p < -(1/10) then "negative"
  else "neutral"

/-- Keys `analyze_sentiment` adds. -/
def sentimentKeys : List String :=
  ["sentiment_polarity", "sentiment_subjectivity", "sentiment_category"]

/-- The per-article body of `analyze_sentiment`:
`analyzed_article = article.copy()` plus the three sentiment keys.
`blob` models `TextBlob(text).sentiment` (polarity, subjectivity). -/
def analyzeArticle (blob : String → ℚ × ℚ) (d : Doc) : Doc :=
  let text := getStr d "clean_text" (getStr d "text" "")
  let pq := blob text
  dset (dset (dset d
    "sentiment_polarity" (.q (round3 pq.1)))
    "sentiment_subjectivity" (.q (round3 pq.2)))
    "sentiment_category" (.s (sentimentCategory pq.1))

/-- `analyze_sentiment`: analyzed articles and the residual state of
the input records (copies, so untouched). -/
def analyze_sentiment (blob : String → ℚ × ℚ) (arts : List Doc) :
    List Doc × List Doc :=
  (arts.map (analyzeArticle blob), arts)

def leftKeywords : List String :=
  ["progressive", "reform", "equality", "climate", "healthcare",
   "workers", "regulation", "discrimination", "rights", "justice"]

def rightKeywords : List String :=
  ["conservative", "traditional", "freedom", "security", "border",
   "tax", "deregulation", "law and order", "values", "patriot"]

def emotionalWords : List String :=
  ["crisis", "disaster", "threat", "dangerous", "attack", "destroy",
   "scandal", "corrupt", "failing", "radical", "extreme"]

/-- Keys `detect_political_bias` adds. -/
def biasKeys : List String :=
  ["bias_direction", "left_keyword_count", "right_keyword_count",
   "emotional_language_count"]

/-- The per-article body of `detect_political_bias`: keyword counts on
the lowercased `clean_text` and the majority bias direction.  Unlike
the other stages it assigns into `article` itself (no `.copy()`). -/
def biasArticle (d : Doc) : Doc :=
  let textLower := pyLower (getStr d "clean_text" "")
  let leftCount :=
    ((leftKeywords.filter (fun k => containsSub textLower k)).length : Int)
  let rightCount :=
    ((rightKeywords.filter (fun k => containsSub textLower k)).length : Int)
  let emotionalCount :=
    ((emotionalWords.filter (fun k => containsSub textLower k)).length : Int)
  let dir :=
    if rightCount < leftCount then "left-leaning"
    else if leftCount < rightCount then "right-leaning"
    else "neutral"
  dset (dset (dset (dset d
    "bias_direction" (.s dir))
    "left_keyword_count" (.i leftCount))
    "right_keyword_count" (.i rightCount))
    "emotional_language_count" (.i emotionalCount)

/-- `detect_political_bias`: bias-analyzed articles and the residual
state of the input records.  The stage mutates the input dicts in
place (`article['bias_direction'] = ...` with no copy) and stores the
same list as `bias_analyzed_articles`, so the inputs end up equal to
the outputs.  (The per-source `bias_analysis` aggregation the function
also builds reads the same counts and touches no article record; no
claim concerns it, so it is not modelled.) -/
def detect_political_bias (arts : List Doc) : List Doc × List Doc :=
  (arts.map biasArticle, arts.map biasArticle)

/-! ## Email delivery (`delivery/tools.py`, `send_email_digest`) -/

/-- The environment variables the delivery tool reads. -/
structure DeliveryEnv where
  recipientEmail : Option String
  gmailAppPassword : Option String
  gmailAddress : Option String
deriving DecidableEq

/-- The distinct failure returns of the delivery tool
(`RECIPIENT_EMAIL not set`, `No daily digest found in state`, and the
transport exception handlers). -/
inductive DeliveryError where
  | missingRecipient
  | missingDocument
  | transportFailure (detail : String)
deriving DecidableEq

/-- Outcome of an attempted send over a transport (SMTP login/send or
the Gmail API chain), which is an external effect. -/
inductive TransportOutcome where
  | delivered
  | failed (detail : String)
deriving DecidableEq

structure DeliveryResult where
  success : Bool
  error : Option DeliveryError
  method : Option String
deriving DecidableEq

/-- Python truthiness test for `os.getenv` results:
`None` and `""` are falsy. -/
def falsyStr : Option String → Bool
  | none => true
  | some s => s == ""

/-- The markdown code-fence cleanup applied to the digest before
sending. -/
def stripFences (s0 : String) : String :=
  let s := pyStrip s0
  let s := if pyStartsWith s "```html" then pyDrop s 7 else s
  let s := if pyStartsWith s "```" then pyDrop s 3 else s
  let s := if pyEndsWith s "```" then pyDropRight s 3 else s
  pyStrip s

/-- `send_via_smtp`: on success writes `email_sent` and `email_method`
into the run state; on a transport exception returns the failure and
leaves the state alone. -/
def send_via_smtp (transport : TransportOutcome) (st : Doc) :
    DeliveryResult × Doc :=
  match transport with
  | .delivered =>
    (⟨true, none, some "smtp"⟩,
      dset (dset st "email_sent" (.b true)) "email_method" (.s "smtp"))
  | .failed detail => (⟨false, some (.transportFailure detail), none⟩, st)

/-- `send_via_gmail_api` (the library-missing and auth-failure returns
are folded into the transport outcome). -/
def send_via_gmail_api (transport : TransportOutcome) (st : Doc) :
    DeliveryResult × Doc :=
  match transport with
  | .delivered =>
    (⟨true, none, some "gmail_api"⟩,
      dset (dset st "email_sent" (.b true)) "email_method" (.s "gmail_api"))
  | .failed detail => (⟨false, some (.transportFailure detail), none⟩, st)

/-- `send_email_digest(tool_context)`: recipient check, digest check,
fence cleanup, then SMTP when both SMTP credentials are set (Python
truthiness), else the Gmail API path.  `smtp`/`api` model the two
transports' outcomes; the second component is the run state after the
call. -/
def send_email_digest (env : DeliveryEnv) (smtp api : TransportOutcome)
    (st : Doc) : DeliveryResult × Doc :=
  if falsyStr env.recipientEmail then
    (⟨false, some .missingRecipient, none⟩, st)
  else
    let digest := getStr st "daily_digest" ""
    if digest == "" then (⟨false, some .missingDocument, none⟩, st)
    else
      let digestHtml := stripFences digest
      let _ := digestHtml
      if !falsyStr env.gmailAppPassword && !falsyStr env.gmailAddress then
        send_via_smtp smtp st
      else
        send_via_gmail_api api st

/-! ## Fetcher calls, abstractly

A uniform view of one fetch-tool invocation, used to state properties
quantified over "any fetcher". -/

inductive FetcherKind where
  | cnn
  | reuters
  | google
deriving DecidableEq

/-- One fetch-tool call: which collector, its category/topic argument,
its limit, and the ambient feed/clock/external functions. -/
structure FetcherCall where
  kind : FetcherKind
  arg : String
  maxArticles : Nat
  entries : List RawEntry
  now : Nat
  strip : String → String
  resolve : String → String

/-- Run one fetch call against the current `collected_articles`. -/
def runFetch (c : FetcherCall) (collected : List Article) :
    FetchResult × List Article :=
  match c.kind with
  | .cnn => fetch_cnn_rss c.arg c.maxArticles c.entries c.now c.strip collected
  | .reuters =>
    fetch_reuters_rss c.arg c.maxArticles c.entries c.now c.strip collected
  | .google =>
    fetch_google_news_rss c.arg c.maxArticles c.entries c.now c.strip
      c.resolve collected

/-- The batch of articles a call contributes (its effect on an empty
accumulator). -/
def FetcherCall.batch (c : FetcherCall) : List Article := (runFetch c []).2

/-- Whether the call is the one that resets the accumulator (the
Google News fetcher on its first topic, `politics`). -/
def FetcherCall.clearsState (c : FetcherCall) : Bool :=
  match c.kind with
  | .google => c.arg == "politics"
  | _ => false

/-- The technology sports filter as the specification words it: a
university-name ambiguity term plus at least one sports keyword, or —
with no university term — at least two distinct sports keyword
co-occurrences, over the lowercased concatenated title+description. -/
def specSportsRejected (title cleanDescription : String) : Prop :=
  let text := pyLower (title ++ " " ++ cleanDescription)
  ((∃ u ∈ universityTechIndicators, containsSub text u = true) ∧
    (∃ k ∈ sportsFilterKeywords, containsSub text k = true)) ∨
  ((¬ ∃ u ∈ universityTechIndicators, containsSub text u = true) ∧
    2 ≤ (sportsFilterKeywords.filter (fun k =>
      containsSub (" " ++ text ++ " ") (" " ++ k ++ " "))).length)

/-! ## Helper lemmas -/

theorem dget_cons_true {rest : List (String × Val)} {a k : String} {w : Val}
    (h : (a == k) = true) : dget ((a, w) :: rest) k = some w := by
  simp [dget, List.find?, h]

theorem dget_cons_false {rest : List (String × Val)} {a k : String} {w : Val}
    (h : (a == k) = false) : dget ((a, w) :: rest) k = dget rest k := by
  simp [dget, List.find?, h]

theorem dget_update_ne (d : Doc) (k k' : String) (v : Val) (h : k' ≠ k) :
    dget (d.map (fun p => if p.1 == k then (k, v) else p)) k' = dget d k' := by
  have hkk' : (k == k') = false :=
    beq_eq_false_iff_ne.mpr (fun hkk => h hkk.symm)
  induction d with
  | nil => rfl
  | cons p rest ih =>
    obtain ⟨a, w⟩ := p
    by_cases hp : a = k
    · subst hp
      have hhead : (if ((a, w).1 == a) = true then (a, v) else (a, w))
          = (a, v) := by simp
      rw [List.map_cons, hhead, dget_cons_false hkk', dget_cons_false hkk']
      exact ih
    · have hp' : (a == k) = false := beq_eq_false_iff_ne.mpr hp
      have hhead : (if ((a, w).1 == k) = true then (k, v) else (a, w))
          = (a, w) := by simp [hp']
      rw [List.map_cons, hhead]
      by_cases hq : a = k'
      · rw [dget_cons_true (beq_iff_eq.mpr hq),
          dget_cons_true (beq_iff_eq.mpr hq)]
      · rw [dget_cons_false (beq_eq_false_iff_ne.mpr hq),
          dget_cons_false (beq_eq_false_iff_ne.mpr hq)]
        exact ih

theorem dget_append_ne (d : Doc) (k k' : String) (v : Val) (h : k' ≠ k) :
    dget (d ++ [(k, v)]) k' = dget d k' := by
  have hkk' : (k == k') = false :=
    beq_eq_false_iff_ne.mpr (fun hkk => h hkk.symm)
  induction d with
  | nil =>
    rw [List.nil_append, dget_cons_false hkk']
  | cons p rest ih =>
    obtain ⟨a, w⟩ := p
    rw [List.cons_append]
    by_cases hq : a = k'
    · rw [dget_cons_true (beq_iff_eq.mpr hq),
        dget_cons_true (beq_iff_eq.mpr hq)]
    · rw [dget_cons_false (beq_eq_false_iff_ne.mpr hq),
        dget_cons_false (beq_eq_false_iff_ne.mpr hq)]
      exact ih

theorem dget_dset_ne (d : Doc) (k k' : String) (v : Val) (h : k' ≠ k) :
    dget (dset d k v) k' = dget d k' := by
  unfold dset
  split
  · exact dget_update_ne d k k' v h
  · exact dget_append_ne d k k' v h

theorem dget_update_self : ∀ (d : Doc) (k : String) (v : Val),
    d.any (fun p => p.1 == k) = true →
    dget (d.map (fun p => if p.1 == k then (k, v) else p)) k = some v := by
  intro d k v
  induction d with
  | nil => intro hd; simp at hd
  | cons p rest ih =>
    intro hd
    obtain ⟨a, w⟩ := p
    by_cases hp : a = k
    · subst hp
      have hhead : (if ((a, w).1 == a) = true then (a, v) else (a, w))
          = (a, v) := by simp
      rw [List.map_cons, hhead, dget_cons_true (beq_self_eq_true a)]
    · have hp' : (a == k) = false := beq_eq_false_iff_ne.mpr hp
      have hhead : (if ((a, w).1 == k) = true then (k, v) else (a, w))
          = (a, w) := by simp [hp']
      simp only [List.any_cons, hp', Bool.false_or] at hd
      rw [List.map_cons, hhead, dget_cons_false hp']
      exact ih hd

theorem dget_append_self : ∀ (d : Doc) (k : String) (v : Val),
    d.any (fun p => p.1 == k) = false →
    dget (d ++ [(k, v)]) k = some v := by
  intro d k v
  induction d with
  | nil =>
    intro _
    rw [List.nil_append, dget_cons_true (beq_self_eq_true k)]
  | cons p rest ih =>
    intro hd
    obtain ⟨a, w⟩ := p
    simp only [List.any_cons] at hd
    have hp : (a == k) = false := by
      cases hpc : (a == k)
      · rfl
      · rw [hpc, Bool.true_or] at hd
        simp at hd
    rw [hp, Bool.false_or] at hd
    rw [List.cons_append, dget_cons_false hp]
    exact ih hd

theorem dget_dset_self (d : Doc) (k : String) (v : Val) :
    dget (dset d k v) k = some v := by
  unfold dset
  split
  · exact dget_update_self d k v (by assumption)
  · rename_i hany
    refine dget_append_self d k v ?_
    cases hc : d.any (fun p => p.1 == k)
    · rfl
    · exact absurd hc hany

theorem fetchLoop_length_le (process : RawEntry → EntryOutcome) (maxA : Nat) :
    ∀ (es : List RawEntry) (acc : List Article) (cnt : Counters),
      acc.length < maxA → ((fetchLoop process maxA es acc cnt).1).length ≤ maxA := by
  intro es
  induction es with
  | nil => intro acc cnt h; exact Nat.le_of_lt h
  | cons e rest ih =>
    intro acc cnt h
    rw [fetchLoop]
    cases hp : process e with
    | accepted a =>
      simp only
      split
      · simpa using h
      · rename_i hlt
        exact ih _ _ (Nat.lt_of_not_le hlt)
    | parseFailed => exact ih _ _ h
    | tooOld => exact ih _ _ h
    | missingTitle => exact ih _ _ h
    | sports => exact ih _ _ h

/-- With the `[:max_articles * k]` slice applied, the loop's batch never
exceeds `max_articles`. -/
theorem fetchLoop_take_length_le (process : RawEntry → EntryOutcome)
    (maxA k : Nat) (es : List RawEntry) :
    ((fetchLoop process maxA (es.take (maxA * k)) [] Counters.zero).1).length
      ≤ maxA := by
  cases maxA with
  | zero => simp [fetchLoop]
  | succ m =>
    exact fetchLoop_length_le process (m + 1) _ [] Counters.zero (Nat.succ_pos m)

/-- `fetch_cnn_rss` only appends to `collected_articles`. -/
theorem fetch_cnn_state_append (category : String) (maxA : Nat)
    (entries : List RawEntry) (now : Nat) (strip : String → String)
    (collected : List Article) :
    (fetch_cnn_rss category maxA entries now strip collected).2 =
      collected ++ (fetch_cnn_rss category maxA entries now strip []).2 := by
  unfold fetch_cnn_rss
  split
  · simp
  · split
    · simp
    · simp

/-- `fetch_reuters_rss` only appends to `collected_articles`. -/
theorem fetch_reuters_state_append (category : String) (maxA : Nat)
    (entries : List RawEntry) (now : Nat) (strip : String → String)
    (collected : List Article) :
    (fetch_reuters_rss category maxA entries now strip collected).2 =
      collected ++ (fetch_reuters_rss category maxA entries now strip []).2 := by
  unfold fetch_reuters_rss
  split
  · simp
  · simp

/-- For any topic other than `politics`, `fetch_google_news_rss` only
appends to `collected_articles`. -/
theorem fetch_google_state_append (topic : String) (maxA : Nat)
    (entries : List RawEntry) (now : Nat) (strip resolve : String → String)
    (collected : List Article) (h : topic ≠ "politics") :
    (fetch_google_news_rss topic maxA entries now strip resolve collected).2 =
      collected ++
        (fetch_google_news_rss topic maxA entries now strip resolve []).2 := by
  have hb : (topic == "politics") = false := beq_eq_false_iff_ne.mpr h
  simp only [fetch_google_news_rss, hb, Bool.false_eq_true, if_false]
  split
  · simp
  · split
    · simp
    · simp

/-- The state `fetch_google_news_rss` leaves for `topic = 'politics'` is
exactly its own batch: the prior accumulator contents are discarded. -/
theorem fetch_google_politics_state (maxA : Nat) (entries : List RawEntry)
    (now : Nat) (strip resolve : String → String) (collected : List Article) :
    (fetch_google_news_rss "politics" maxA entries now strip resolve
        collected).2 =
      (googleBatch "politics" maxA entries now strip resolve).1 := by
  have h1 : (("politics" : String) == "politics") = true := by decide
  have h2 : ((["politics", "technology", "europe"] : List String).contains
      "politics") = true := by decide
  simp only [fetch_google_news_rss, h1, h2, if_true]
  rw [if_neg (by simp)]
  by_cases he : entries.isEmpty
  · have hemp : entries = [] := by
      cases entries
      · rfl
      · simp [List.isEmpty] at he
    subst hemp
    rw [if_pos he]
    simp [googleBatch, fetchLoop, List.take_nil]
  · rw [if_neg he]
    simp

/-! ## Claims -/

/-- C1.  The claim states that, for every fetch call, an entry with
neither a parseable published nor updated timestamp is rejected rather
than defaulted to the current time.  `fetch_cnn_rss` and
`fetch_google_news_rss` behave that way, but `fetch_reuters_rss`
contradicts it (and the spec's explicit rationale): its
`except: pub_date = datetime.now()` defaults the timestamp of an
unparseable entry to the fetch clock, so the entry passes the recency
filter and is appended — here evaluated at a one-entry feed with no
parseable timestamp, which ends up in the accumulator stamped with the
current time. -/
theorem reuters_unparseable_date_defaults_to_now :
    (fetch_reuters_rss "politics" 5
        [{ title := some "Headline", published := none, updated := none,
           summary := "", link := some "u" }]
        1000000 (fun s => s) []).2 =
      [{ title := "Headline", url := "u", source := "Reuters",
         politicalLeaning := some "center-left", aggregator := none,
         originalSource := none, region := "US", category := "politics",
         timestamp := 1000000, description := "", text := "" }] := by
  decide

/-- C2.  The aggregator (Google News) fetcher's first topic query of a
run (`topic = 'politics'`, the first topic the collector agent
queries) leaves the accumulator holding exactly its own batch,
clearing whatever was there; every other topic query and every other
fetcher (CNN, Reuters) leaves the prior contents as a prefix and only
appends its own batch. -/
theorem google_first_topic_clears_rest_append :
    (∀ (maxA : Nat) (entries : List RawEntry) (now : Nat)
        (strip resolve : String → String) (prior : List Article),
      (fetch_google_news_rss "politics" maxA entries now strip resolve
          prior).2 =
        (googleBatch "politics" maxA entries now strip resolve).1) ∧
    (∀ (topic : String), topic ≠ "politics" →
      ∀ (maxA : Nat) (entries : List RawEntry) (now : Nat)
        (strip resolve : String → String) (prior : List Article),
      (fetch_google_news_rss topic maxA entries now strip resolve prior).2 =
        prior ++
          (fetch_google_news_rss topic maxA entries now strip resolve []).2) ∧
    (∀ (category : String) (maxA : Nat) (entries : List RawEntry) (now : Nat)
        (strip : String → String) (prior : List Article),
      (fetch_cnn_rss category maxA entries now strip prior).2 =
        prior ++ (fetch_cnn_rss category maxA entries now strip []).2) ∧
    (∀ (category : String) (maxA : Nat) (entries : List RawEntry) (now : Nat)
        (strip : String → String) (prior : List Article),
      (fetch_reuters_rss category maxA entries now strip prior).2 =
        prior ++ (fetch_reuters_rss category maxA entries now strip []).2) :=
  ⟨fun maxA entries now strip resolve prior =>
      fetch_google_politics_state maxA entries now strip resolve prior,
   fun topic h maxA entries now strip resolve prior =>
      fetch_google_state_append topic maxA entries now strip resolve prior h,
   fun category maxA entries now strip prior =>
      fetch_cnn_state_append category maxA entries now strip prior,
   fun category maxA entries now strip prior =>
      fetch_reuters_state_append category maxA entries now strip prior⟩

/-- Witness for C2: the clearing conjunct evaluated on a concrete prior
accumulator and the non-politics conjunct at topic `europe`, its
hypothesis discharged concretely. -/
theorem google_first_topic_clears_rest_append_witness :
    ("europe" ≠ "politics") ∧
    (fetch_google_news_rss "europe" 1 [] 0 id id
        [{ title := "old", url := "", source := "X",
           politicalLeaning := none, aggregator := none,
           originalSource := none, region := "", category := "",
           timestamp := 0, description := "", text := "" }]).2 =
      [{ title := "old", url := "", source := "X",
         politicalLeaning := none, aggregator := none,
         originalSource := none, region := "", category := "",
         timestamp := 0, description := "", text := "" }] ++
        (fetch_google_news_rss "europe" 1 [] 0 id id []).2 := by
  refine ⟨by decide, ?_⟩
  exact google_first_topic_clears_rest_append.2.1 "europe" (by decide)
    1 [] 0 id id _

/-- A non-clearing fetch call appends exactly its batch. -/
theorem runFetch_append (c : FetcherCall) (h : c.clearsState = false)
    (prior : List Article) :
    (runFetch c prior).2 = prior ++ c.batch := by
  obtain ⟨kind, arg, maxA, entries, now, strip, resolve⟩ := c
  cases kind
  · exact fetch_cnn_state_append arg maxA entries now strip prior
  · exact fetch_reuters_state_append arg maxA entries now strip prior
  · have harg : arg ≠ "politics" := by
      intro hc
      subst hc
      simp [FetcherCall.clearsState] at h
    exact fetch_google_state_append arg maxA entries now strip resolve prior
      harg

/-- C3.  For any prior accumulator contents and any two (non-resetting)
fetch calls run in order, the final `collected_articles` list is the
prior contents, then the first call's batch, then the second call's
batch — the prior contents survive as an unchanged prefix. -/
theorem accumulator_append_is_ordered_concat (c1 c2 : FetcherCall)
    (prior : List Article) (h1 : c1.clearsState = false)
    (h2 : c2.clearsState = false) :
    (runFetch c2 (runFetch c1 prior).2).2 = (prior ++ c1.batch) ++ c2.batch ∧
    prior <+: (runFetch c2 (runFetch c1 prior).2).2 := by
  have e1 := runFetch_append c1 h1 prior
  have e2 := runFetch_append c2 h2 (runFetch c1 prior).2
  constructor
  · rw [e2, e1]
  · rw [e2, e1, List.append_assoc]
    exact ⟨c1.batch ++ c2.batch, rfl⟩

/-- Witness for C3: a CNN call then a Google News `europe` call on a
concrete one-article prior accumulator. -/
theorem accumulator_append_is_ordered_concat_witness :
    (FetcherCall.clearsState
        ⟨.cnn, "politics", 1,
          [{ title := some "A", published := some 999999, updated := none,
             summary := "", link := some "u" }], 1000000, id, id⟩ = false) ∧
    (FetcherCall.clearsState ⟨.google, "europe", 1, [], 1000000, id, id⟩
        = false) ∧
    ((runFetch ⟨.google, "europe", 1, [], 1000000, id, id⟩
        (runFetch
          ⟨.cnn, "politics", 1,
            [{ title := some "A", published := some 999999, updated := none,
               summary := "", link := some "u" }], 1000000, id, id⟩
          [{ title := "old", url := "", source := "X",
             politicalLeaning := none, aggregator := none,
             originalSource := none, region := "", category := "",
             timestamp := 0, description := "", text := "" }]).2).2 =
      ([{ title := "old", url := "", source := "X",
          politicalLeaning := none, aggregator := none,
          originalSource := none, region := "", category := "",
          timestamp := 0, description := "", text := "" }] ++
        FetcherCall.batch
          ⟨.cnn, "politics", 1,
            [{ title := some "A", published := some 999999, updated := none,
               summary := "", link := some "u" }], 1000000, id, id⟩) ++
        FetcherCall.batch ⟨.google, "europe", 1, [], 1000000, id, id⟩) :=
  ⟨rfl, rfl,
    (accumulator_append_is_ordered_concat _ _ _ (by decide) (by decide)).1⟩

/-- C10.  A successful fetch call with limit `max_articles` appends its
batch (after the politics reset, for Google News), reports the batch
length as its count, keeps the batch within the limit, and reads no
feed entries beyond the first `2 * max_articles` (CNN) or
`3 * max_articles` (Google News). -/
theorem fetch_respects_max_articles_limit :
    (∀ (category : String) (maxA : Nat) (entries : List RawEntry) (now : Nat)
        (strip : String → String) (prior : List Article),
      (fetch_cnn_rss category maxA entries now strip prior).1.success = true →
        (fetch_cnn_rss category maxA entries now strip prior).1.count
            = (cnnBatch category maxA entries now strip).1.length ∧
          (fetch_cnn_rss category maxA entries now strip prior).2
            = prior ++ (cnnBatch category maxA entries now strip).1 ∧
          (cnnBatch category maxA entries now strip).1.length ≤ maxA ∧
          cnnBatch category maxA entries now strip
            = cnnBatch category maxA (entries.take (maxA * 2)) now strip) ∧
    (∀ (topic : String) (maxA : Nat) (entries : List RawEntry) (now : Nat)
        (strip resolve : String → String) (prior : List Article),
      (fetch_google_news_rss topic maxA entries now strip resolve
          prior).1.success = true →
        (fetch_google_news_rss topic maxA entries now strip resolve
            prior).1.count
            = (googleBatch topic maxA entries now strip resolve).1.length ∧
          (fetch_google_news_rss topic maxA entries now strip resolve prior).2
            = (if topic == "politics" then ([] : List Article) else prior) ++
                (googleBatch topic maxA entries now strip resolve).1 ∧
          (googleBatch topic maxA entries now strip resolve).1.length ≤ maxA ∧
          googleBatch topic maxA entries now strip resolve
            = googleBatch topic maxA (entries.take (maxA * 3)) now strip
                resolve) := by
  constructor
  · intro category maxA entries now strip prior hs
    simp only [fetch_cnn_rss] at hs ⊢
    split at hs
    · simp at hs
    · split at hs
      · simp at hs
      · rename_i h1 h2
        rw [if_neg h1, if_neg h2]
        refine ⟨rfl, rfl, fetchLoop_take_length_le _ maxA 2 entries, ?_⟩
        simp [cnnBatch, List.take_take]
  · intro topic maxA entries now strip resolve prior hs
    simp only [fetch_google_news_rss] at hs ⊢
    split at hs
    · simp at hs
    · split at hs
      · simp at hs
      · rename_i h1 h2
        rw [if_neg h1, if_neg h2]
        refine ⟨rfl, rfl, fetchLoop_take_length_le _ maxA 3 entries, ?_⟩
        simp [googleBatch, List.take_take]

/-- Witness for C10: a succeeding CNN call and a succeeding Google News
call, one valid entry each, limit 1. -/
theorem fetch_respects_max_articles_limit_witness :
    ((fetch_cnn_rss "politics" 1
        [{ title := some "A", published := some 999999, updated := none,
           summary := "", link := some "u" }] 1000000 id []).1.success = true ∧
      (fetch_cnn_rss "politics" 1
        [{ title := some "A", published := some 999999, updated := none,
           summary := "", link := some "u" }] 1000000 id []).1.count
          = (cnnBatch "politics" 1
              [{ title := some "A", published := some 999999, updated := none,
                 summary := "", link := some "u" }] 1000000 id).1.length) ∧
    ((fetch_google_news_rss "europe" 1
        [{ title := some "B", published := some 999999, updated := none,
           summary := "", link := some "u" }] 1000000 id id []).1.success
          = true ∧
      (fetch_google_news_rss "europe" 1
        [{ title := some "B", published := some 999999, updated := none,
           summary := "", link := some "u" }] 1000000 id id []).1.count
          = (googleBatch "europe" 1
              [{ title := some "B", published := some 999999, updated := none,
                 summary := "", link := some "u" }] 1000000 id id).1.length) :=
  ⟨⟨by decide,
    (fetch_respects_max_articles_limit.1 "politics" 1 _ 1000000 id []
      (by decide)).1⟩,
   ⟨by decide,
    (fetch_respects_max_articles_limit.2 "europe" 1 _ 1000000 id id []
      (by decide)).1⟩⟩

/-- C4 counterexample.  The bias-detection stage does not produce a
fresh augmented copy: `detect_political_bias` assigns
`article['bias_direction'] = ...` into the input dict itself, so after
the stage the input records are no longer their original values —
shown here on a one-article collection. -/
theorem bias_stage_mutates_input_records :
    ¬ ((detect_political_bias
          [[("clean_text", Val.s "progressive reform equality")]]).2 =
        [[("clean_text", Val.s "progressive reform equality")]]) := by
  decide

/-- C4 (amended).  The preprocess, credibility-scoring and sentiment
stages each produce a new augmented copy of every input article — all
fields outside the stage's own added keys preserved, inputs left
unmutated; the bias/keyword stage also preserves and augments the
per-article fields, but it mutates the article records in place
(the records it leaves behind are its augmented outputs, not the
originals). -/
theorem enrichment_stages_augment_copy_except_bias :
    (∀ (ner : String → EntityData) (arts : List Doc),
      (preprocess_articles ner arts).2 = arts) ∧
    (∀ arts : List Doc, (score_article_credibility arts).2 = arts) ∧
    (∀ (blob : String → ℚ × ℚ) (arts : List Doc),
      (analyze_sentiment blob arts).2 = arts) ∧
    (∀ (ner : String → EntityData) (d : Doc) (k : String),
      ¬ k ∈ preprocessKeys → dget (preprocessArticle ner d) k = dget d k) ∧
    (∀ (d : Doc) (k : String),
      ¬ k ∈ scoreKeys → dget (scoreArticle d) k = dget d k) ∧
    (∀ (blob : String → ℚ × ℚ) (d : Doc) (k : String),
      ¬ k ∈ sentimentKeys → dget (analyzeArticle blob d) k = dget d k) ∧
    (∀ (d : Doc) (k : String),
      ¬ k ∈ biasKeys → dget (biasArticle d) k = dget d k) ∧
    (∀ arts : List Doc,
      (detect_political_bias arts).2 = (detect_political_bias arts).1) := by
  refine ⟨fun _ _ => rfl, fun _ => rfl, fun _ _ => rfl, ?_, ?_, ?_, ?_,
    fun _ => rfl⟩
  · intro ner d k hk
    simp only [preprocessKeys, List.mem_cons, List.not_mem_nil, or_false,
      not_or] at hk
    obtain ⟨h1, h2, h3, h4, h5, h6, h7⟩ := hk
    simp only [preprocessArticle]
    rw [dget_dset_ne _ _ _ _ h7, dget_dset_ne _ _ _ _ h6,
      dget_dset_ne _ _ _ _ h5, dget_dset_ne _ _ _ _ h4,
      dget_dset_ne _ _ _ _ h3, dget_dset_ne _ _ _ _ h2,
      dget_dset_ne _ _ _ _ h1]
  · intro d k hk
    simp only [scoreKeys, List.mem_cons, List.not_mem_nil, or_false,
      not_or] at hk
    obtain ⟨h1, h2, h3, h4⟩ := hk
    simp only [scoreArticle]
    rw [dget_dset_ne _ _ _ _ h4, dget_dset_ne _ _ _ _ h3,
      dget_dset_ne _ _ _ _ h2, dget_dset_ne _ _ _ _ h1]
  · intro blob d k hk
    simp only [sentimentKeys, List.mem_cons, List.not_mem_nil, or_false,
      not_or] at hk
    obtain ⟨h1, h2, h3⟩ := hk
    simp only [analyzeArticle]
    rw [dget_dset_ne _ _ _ _ h3, dget_dset_ne _ _ _ _ h2,
      dget_dset_ne _ _ _ _ h1]
  · intro d k hk
    simp only [biasKeys, List.mem_cons, List.not_mem_nil, or_false,
      not_or] at hk
    obtain ⟨h1, h2, h3, h4⟩ := hk
    simp only [biasArticle]
    rw [dget_dset_ne _ _ _ _ h4, dget_dset_ne _ _ _ _ h3,
      dget_dset_ne _ _ _ _ h2, dget_dset_ne _ _ _ _ h1]

/-- Witness for C4 (amended): the preserved-field conjuncts applied to
the key `title` of a concrete article. -/
theorem enrichment_stages_augment_copy_except_bias_witness :
    (¬ "title" ∈ preprocessKeys) ∧ (¬ "title" ∈ scoreKeys) ∧
    (¬ "title" ∈ sentimentKeys) ∧ (¬ "title" ∈ biasKeys) ∧
    dget (preprocessArticle (fun _ => ⟨[], [], [], []⟩)
        [("title", Val.s "T")]) "title" = dget [("title", Val.s "T")] "title" ∧
    dget (scoreArticle [("title", Val.s "T")]) "title"
      = dget [("title", Val.s "T")] "title" ∧
    dget (analyzeArticle (fun _ => (0, 0)) [("title", Val.s "T")]) "title"
      = dget [("title", Val.s "T")] "title" ∧
    dget (biasArticle [("title", Val.s "T")]) "title"
      = dget [("title", Val.s "T")] "title" :=
  ⟨by decide, by decide, by decide, by decide,
    enrichment_stages_augment_copy_except_bias.2.2.2.1 _ _ "title"
      (by decide),
    enrichment_stages_augment_copy_except_bias.2.2.2.2.1 _ "title"
      (by decide),
    enrichment_stages_augment_copy_except_bias.2.2.2.2.2.1 _ _ "title"
      (by decide),
    enrichment_stages_augment_copy_except_bias.2.2.2.2.2.2.1 _ "title"
      (by decide)⟩

/-- C5.  Credibility scoring is a pure lookup on the source name: an
article whose source is `Reuters` is scored `credibility_score = 90`,
`bias_score = 1` and lands in the high-credibility band counter; any
source absent from `SOURCE_CREDIBILITY` gets exactly the `Unknown`
default (60, bias 5); and the lookup is deterministic. -/
theorem credibility_lookup_reuters_and_unknown :
    (∀ d : Doc, getStr d "source" "Unknown" = "Reuters" →
      dget (scoreArticle d) "credibility_score" = some (.i 90) ∧
      dget (scoreArticle d) "bias_score" = some (.i 1) ∧
      bandOf (credFor (getStr d "source" "Unknown")).credibility_score
        = .high ∧
      (∀ st : CredStats,
        (st.bump (credFor (getStr d "source" "Unknown"))).high_credibility
          = st.high_credibility + 1)) ∧
    (∀ s : String,
      SOURCE_CREDIBILITY.find? (fun p => p.1 == s) = none →
        credFor s = ⟨60, "unknown", 5, "unknown",
          "Source not in credibility database"⟩) ∧
    (∀ s : String, credFor s = credFor s) := by
  refine ⟨?_, ?_, fun _ => rfl⟩
  · intro d hsrc
    have hcred : credFor (getStr d "source" "Unknown")
        = ⟨90, "center", 1, "very high",
            "International news agency focused on factual reporting"⟩ := by
      rw [hsrc]
      decide
    refine ⟨?_, ?_, ?_, ?_⟩
    · simp only [scoreArticle, hcred]
      rw [dget_dset_ne _ _ _ _ (by decide), dget_dset_ne _ _ _ _ (by decide),
        dget_dset_ne _ _ _ _ (by decide), dget_dset_self]
    · simp only [scoreArticle, hcred]
      rw [dget_dset_ne _ _ _ _ (by decide), dget_dset_ne _ _ _ _ (by decide),
        dget_dset_self]
    · rw [hcred]
      decide
    · intro st
      rw [hcred]
      simp only [CredStats.bump]
      have hband : bandOf (90 : Int) = Band.high := by decide
      rw [hband]
      norm_num
  · intro s h
    unfold credFor
    rw [h]
    rfl

/-- Witness for C5: the Reuters conjunct on a concrete article and the
Unknown-default conjunct on a concrete absent source. -/
theorem credibility_lookup_reuters_and_unknown_witness :
    (getStr [("source", Val.s "Reuters")] "source" "Unknown" = "Reuters") ∧
    dget (scoreArticle [("source", Val.s "Reuters")]) "credibility_score"
      = some (.i 90) ∧
    (SOURCE_CREDIBILITY.find? (fun p => p.1 == "Acme Daily") = none) ∧
    credFor "Acme Daily" = ⟨60, "unknown", 5, "unknown",
      "Source not in credibility database"⟩ :=
  ⟨by decide,
    (credibility_lookup_reuters_and_unknown.1 _ (by decide)).1,
    by decide,
    credibility_lookup_reuters_and_unknown.2.1 "Acme Daily" (by decide)⟩

/-- The flagged list never exceeds the total claim count. -/
theorem flatMap_filter_length_le (arts : List Doc) :
    (arts.flatMap (fun d => ((getList d "claims").filter
        (claimFlagged (getInt d "bias_score" 0))).map (mkFlagged d))).length
      ≤ (arts.map (fun d => (getList d "claims").length)).sum := by
  induction arts with
  | nil => simp
  | cons d rest ih =>
    simp only [List.flatMap_cons, List.map_cons, List.sum_cons,
      List.length_append, List.length_map]
    exact Nat.add_le_add (List.length_filter_le _ _) ih

/-- Bounds for the `flagged/total if total > 0 else 0` expression. -/
theorem rate_expr_bounds (fl tot : Nat) (hle : fl ≤ tot) :
    0 ≤ (if 0 < tot then (fl : ℚ) / (tot : ℚ) else 0) ∧
      (if 0 < tot then (fl : ℚ) / (tot : ℚ) else 0) ≤ 1 := by
  split
  · rename_i ht
    constructor
    · positivity
    · rw [div_le_one (by exact_mod_cast ht)]
      exact_mod_cast hle
  · exact ⟨le_refl 0, by norm_num⟩

/-- C6.  The dubious-claim flag rate is `flagged/total` and lies in
`[0, 1]`; with zero total claims it is exactly `0` (no division
error); and a claim is flagged exactly when it contains a hedging
keyword (case-insensitive substring) or belongs to an article whose
`bias_score` is at least 7. -/
theorem flag_rate_bounds_and_flag_condition :
    ∀ arts : List Doc,
      (0 ≤ (flag_dubious_claims arts).flag_rate ∧
        (flag_dubious_claims arts).flag_rate ≤ 1) ∧
      ((flag_dubious_claims arts).total_claims = 0 →
        (flag_dubious_claims arts).flag_rate = 0) ∧
      (0 < (flag_dubious_claims arts).total_claims →
        (flag_dubious_claims arts).flag_rate =
          ((flag_dubious_claims arts).flagged.length : ℚ) /
            ((flag_dubious_claims arts).total_claims : ℚ)) ∧
      (∀ (biasScore : Int) (c : String),
        claimFlagged biasScore c = true ↔
          ((∃ kw ∈ verificationKeywords,
              containsSub (pyLower c) kw = true) ∨ 7 ≤ biasScore)) ∧
      ((flag_dubious_claims arts).flagged =
        arts.flatMap (fun d => ((getList d "claims").filter
          (claimFlagged (getInt d "bias_score" 0))).map (mkFlagged d))) := by
  intro arts
  have hle := flatMap_filter_length_le arts
  refine ⟨?_, ?_, ?_, ?_, rfl⟩
  · simp only [flag_dubious_claims]
    exact rate_expr_bounds _ _ hle
  · intro h0
    simp only [flag_dubious_claims] at h0 ⊢
    simp [h0]
  · intro hpos
    simp only [flag_dubious_claims] at hpos ⊢
    simp [hpos]
  · intro biasScore c
    simp [claimFlagged, List.any_eq_true]

/-- Witness for C6: a zero-claim input gives rate 0, and a one-claim
input with a hedging keyword realises the `flagged/total` formula. -/
theorem flag_rate_bounds_and_flag_condition_witness :
    ((flag_dubious_claims []).total_claims = 0 ∧
      (flag_dubious_claims []).flag_rate = 0) ∧
    (0 < (flag_dubious_claims
        [[("claims", Val.ls ["Officials reportedly said it is fine"]),
          ("bias_score", Val.i 1)]]).total_claims ∧
      (flag_dubious_claims
        [[("claims", Val.ls ["Officials reportedly said it is fine"]),
          ("bias_score", Val.i 1)]]).flag_rate =
        ((flag_dubious_claims
          [[("claims", Val.ls ["Officials reportedly said it is fine"]),
            ("bias_score", Val.i 1)]]).flagged.length : ℚ) /
          ((flag_dubious_claims
            [[("claims", Val.ls ["Officials reportedly said it is fine"]),
              ("bias_score", Val.i 1)]]).total_claims : ℚ)) :=
  ⟨⟨by decide, (flag_rate_bounds_and_flag_condition []).2.1 (by decide)⟩,
   ⟨by decide,
    (flag_rate_bounds_and_flag_condition _).2.2.1 (by decide)⟩⟩

/-- C7.  For technology-topic entries only, the Google News fetcher
rejects an entry as sports exactly when the lowercased concatenated
title+description contains a Tech-university ambiguity term together
with at least one sports keyword, or — with no university term — at
least two distinct sports keyword co-occurrences; the Georgia
Tech/touchdown scenario is rejected, a no-sports-term AI entry is
accepted, and the same sporty entry is not filtered under a
non-technology topic. -/
theorem tech_sports_filter_rule :
    (∀ title cleanDescription : String,
      isSportsArticle title cleanDescription = true ↔
        specSportsRejected title cleanDescription) ∧
    isSportsArticle "Georgia Tech scores a touchdown" "" = true ∧
    isSportsArticle "New AI model released" "announcing big claims"
        = false ∧
    googleProcessEntry "technology" 1000000 id id
      { title := some "Georgia Tech scores a touchdown",
        published := some 999999, updated := none, summary := "",
        link := some "u" } = .sports ∧
    (∃ a : Article, googleProcessEntry "politics" 1000000 id id
      { title := some "Georgia Tech scores a touchdown",
        published := some 999999, updated := none, summary := "",
        link := some "u" } = .accepted a) ∧
    (∃ a : Article, googleProcessEntry "technology" 1000000 id id
      { title := some "New AI model released", published := some 999999,
        updated := none, summary := "", link := some "u" }
        = .accepted a) := by
  refine ⟨?_, by decide, by decide, by decide,
    ⟨{ title := "Georgia Tech scores a touchdown", url := "u",
       source := "Google News", politicalLeaning := none,
       aggregator := some "Google News",
       originalSource := some "Google News", region := "US",
       category := "politics", timestamp := 999999, description := "",
       text := "" }, by decide⟩,
    ⟨{ title := "New AI model released", url := "u",
       source := "Google News", politicalLeaning := none,
       aggregator := some "Google News",
       originalSource := some "Google News", region := "US",
       category := "technology", timestamp := 999999, description := "",
       text := "" }, by decide⟩⟩
  intro t d
  simp only [isSportsArticle, specSportsRejected]
  split
  · rename_i hu
    have hA : ∃ u ∈ universityTechIndicators,
        containsSub (pyLower (t ++ " " ++ d)) u = true :=
      List.any_eq_true.mp hu
    constructor
    · intro hk
      exact Or.inl ⟨hA, List.any_eq_true.mp hk⟩
    · intro hr
      rcases hr with ⟨_, hB⟩ | ⟨hnA, _⟩
      · exact List.any_eq_true.mpr hB
      · exact absurd hA hnA
  · rename_i hu
    have hnA : ¬ ∃ u ∈ universityTechIndicators,
        containsSub (pyLower (t ++ " " ++ d)) u = true :=
      fun hc => hu (List.any_eq_true.mpr hc)
    simp only [decide_eq_true_eq]
    constructor
    · intro hk
      exact Or.inr ⟨hnA, hk⟩
    · rintro (⟨hA, _⟩ | ⟨_, hC⟩)
      · exact absurd hA hnA
      · exact hC

/-- C8.  With no configured recipient the delivery tool fails with its
missing-recipient error, with no assembled digest it fails with its
missing-document error, and in both cases the run state is returned
exactly as it was — no `email_sent` flag or any other key is
written. -/
theorem delivery_failures_leave_state_unmodified :
    ∀ (env : DeliveryEnv) (smtp api : TransportOutcome) (st : Doc),
      (falsyStr env.recipientEmail = true →
        (send_email_digest env smtp api st).1
            = ⟨false, some .missingRecipient, none⟩ ∧
          (send_email_digest env smtp api st).2 = st) ∧
      (falsyStr env.recipientEmail = false →
        getStr st "daily_digest" "" = "" →
          (send_email_digest env smtp api st).1
              = ⟨false, some .missingDocument, none⟩ ∧
            (send_email_digest env smtp api st).2 = st) := by
  intro env smtp api st
  constructor
  · intro h
    constructor
    · simp [send_email_digest, h]
    · simp [send_email_digest, h]
  · intro h hd
    constructor
    · simp [send_email_digest, h, hd]
    · simp [send_email_digest, h, hd]

/-- Witness for C8: an unset `RECIPIENT_EMAIL` with a digest present,
and a set recipient with no digest in the run state. -/
theorem delivery_failures_leave_state_unmodified_witness :
    (falsyStr (DeliveryEnv.mk none none none).recipientEmail = true ∧
      (send_email_digest ⟨none, none, none⟩ .delivered .delivered
        [("daily_digest", Val.s "x")]).2 = [("daily_digest", Val.s "x")]) ∧
    (falsyStr (DeliveryEnv.mk (some "reader@example.com") none
        none).recipientEmail = false ∧
      getStr ([] : Doc) "daily_digest" "" = "" ∧
      (send_email_digest ⟨some "reader@example.com", none, none⟩ .delivered
        .delivered []).2 = []) :=
  ⟨⟨by decide,
    ((delivery_failures_leave_state_unmodified ⟨none, none, none⟩
      .delivered .delivered _).1 (by decide)).2⟩,
   ⟨by decide, by decide,
    ((delivery_failures_leave_state_unmodified
      ⟨some "reader@example.com", none, none⟩ .delivered .delivered []).2
        (by decide) (by decide)).2⟩⟩

/-- One scored article bumps exactly one of the three credibility-band
counters. -/
theorem bump_band_sum (st : CredStats) (c : CredEntry) :
    (st.bump c).high_credibility + (st.bump c).medium_credibility +
      (st.bump c).low_credibility
      = st.high_credibility + st.medium_credibility + st.low_credibility
          + 1 := by
  unfold CredStats.bump
  cases bandOf c.credibility_score <;> split_ifs <;> simp <;> omega

/-- The band counters accumulated over a fold count every article. -/
theorem credstats_fold_band_sum : ∀ (arts : List Doc) (st : CredStats),
    ((arts.foldl (fun st d =>
        st.bump (credFor (getStr d "source" "Unknown"))) st).high_credibility +
      (arts.foldl (fun st d =>
        st.bump (credFor (getStr d "source" "Unknown"))) st).medium_credibility +
      (arts.foldl (fun st d =>
        st.bump (credFor (getStr d "source" "Unknown"))) st).low_credibility)
      = st.high_credibility + st.medium_credibility + st.low_credibility
          + arts.length := by
  intro arts
  induction arts with
  | nil => intro st; simp
  | cons d rest ih =>
    intro st
    rw [List.foldl_cons, List.length_cons, ih, bump_band_sum]
    omega

/-- C9.  Every scored article is counted in exactly one credibility
band, so the three band counters always sum to the scored-article
count; the two bias-band counters can sum to less than that count,
because a `bias_score` in `[4, 7)` (e.g. CNN's 4) is counted in
neither band. -/
theorem credibility_band_partition_and_bias_gap :
    (∀ arts : List Doc,
      (score_article_credibility arts).1.2.high_credibility +
        (score_article_credibility arts).1.2.medium_credibility +
        (score_article_credibility arts).1.2.low_credibility
          = (score_article_credibility arts).1.1.length ∧
      (score_article_credibility arts).1.1.length = arts.length) ∧
    ((score_article_credibility [[("source", Val.s "CNN")]]).1.2.high_bias +
        (score_article_credibility [[("source", Val.s "CNN")]]).1.2.low_bias
      < (score_article_credibility [[("source", Val.s "CNN")]]).1.1.length) := by
  constructor
  · intro arts
    constructor
    · simp only [score_article_credibility]
      rw [credstats_fold_band_sum arts CredStats.zero]
      simp [CredStats.zero]
    · simp [score_article_credibility]
  · decide

end Manis
